import Mathlib

/-!
# WalletMonitor — shallow embedding and verification

A shallow embedding of the core pipeline of the WalletMonitor backend
(`backend/data/processor.py`, `backend/data/storage.py`,
`backend/alert/engine.py`, `backend/api/transactions.py`) together with
proofs and refutations of the specification claims.

Modelling conventions:
* Python dicts carrying transaction / wallet / rule data become structures
  whose fields are `Option`-valued: `none` plays the role of "key absent or
  value `None`" — every read in the source goes through `dict.get`, so the
  two are indistinguishable to the code, except for rule thresholds where
  the distinction is observable and is modelled explicitly (`ThresholdField`).
* Python floats become `Rat`.  Every numeric comparison the claims touch
  (score sums of 0.5/0.3/0.2 against 0.4/0.8, threshold comparisons) is
  exact in binary64 at the relevant boundaries, so `Rat` is faithful.
* Exceptions caught by the source's own `try/except` blocks are modelled
  with `Except`: the fallible body is a separate definition returning
  `Except PyErr _`, and the catching wrapper maps errors to the source's
  fallback value.
* SQLite time-stamped audit columns (`created_at`, …) are not modelled;
  no claim mentions them.
-/

namespace WalletMonitor

/-- Canonical transaction record: the Python dict produced by
`DataProcessor.clean_transaction` and stored by `DataStorage.add_transaction`.
`none` means the key is absent (or its value is `None`). -/
structure Tx where
  chain : Option String := none
  timestamp : Option Int := none
  hash : Option String := none
  from_address : Option String := none
  to_address : Option String := none
  amount : Option Rat := none
  status : Option String := none
  gas_used : Option Int := none
  gas_price : Option Int := none
  input_data : Option String := none
  block_number : Option Int := none
  block_hash : Option String := none
  is_contract_interaction : Option Bool := none
  contract_address : Option String := none
  wallet_address : Option String := none
  anomaly_score : Option Rat := none
  risk_level : Option String := none
deriving DecidableEq, Repr

/-- Result dict of `DataProcessor.detect_anomaly` (success path). -/
structure AnomalyResult where
  anomaly_score : Rat
  anomalies : List String
  risk_level : String
deriving DecidableEq, Repr

/-- `DataProcessor._calculate_avg_amount`: returns `0.0` on an empty list,
otherwise `sum(tx.get("amount", 0)) / len(transactions)`. -/
def _calculate_avg_amount (transactions : List Tx) : Rat :=
  if transactions = [] then 0
  else (transactions.map (fun tx => tx.amount.getD 0)).sum / transactions.length

/-- `DataProcessor._is_familiar_address`: a falsy address (`None` or `""`)
is never familiar; otherwise familiar iff it appears as `from_address` or
`to_address` of some history entry. -/
def _is_familiar_address (address : Option String) (transactions : List Tx) : Bool :=
  match address with
  | none => false
  | some a =>
    if a = "" then false
    else transactions.any (fun tx => tx.from_address == some a || tx.to_address == some a)

/-- The filter of `DataProcessor._is_frequent_transaction`:
`tx.get("timestamp") and timestamp - tx.get("timestamp") < 3600`
(a history timestamp of `None` or `0` is falsy and excluded). -/
def recentFilter (timestamp : Int) (tx : Tx) : Bool :=
  match tx.timestamp with
  | none => false
  | some u => if u = 0 then false else decide (timestamp - u < 3600)

/-- `DataProcessor._is_frequent_transaction`: false on empty history or a
falsy (`None`/`0`) transaction timestamp; otherwise true iff more than 10
history entries pass `recentFilter`. -/
def _is_frequent_transaction (transaction : Tx) (transactions : List Tx) : Bool :=
  if transactions = [] then false
  else
    match transaction.timestamp with
    | none => false
    | some t =>
      if t = 0 then false
      else decide ((transactions.filter (recentFilter t)).length > 10)

/-- `DataProcessor._calculate_risk_level`: `high` for score ≥ 0.8,
`medium` for ≥ 0.4, else `low`. -/
def _calculate_risk_level (anomaly_score : Rat) : String :=
  if anomaly_score ≥ 4/5 then "high"
  else if anomaly_score ≥ 2/5 then "medium"
  else "low"

/-- First gate of `detect_anomaly`:
`transaction.get("amount", 0) > avg_amount * 3`. -/
def fired_large (transaction : Tx) (wallet_history : List Tx) : Bool :=
  decide (transaction.amount.getD 0 > _calculate_avg_amount wallet_history * 3)

/-- Second gate of `detect_anomaly`:
`not DataProcessor._is_familiar_address(to_address, wallet_history)`. -/
def fired_unfamiliar (transaction : Tx) (wallet_history : List Tx) : Bool :=
  !(_is_familiar_address transaction.to_address wallet_history)

/-- Third gate of `detect_anomaly`:
`DataProcessor._is_frequent_transaction(transaction, wallet_history)`. -/
def fired_frequent (transaction : Tx) (wallet_history : List Tx) : Bool :=
  _is_frequent_transaction transaction wallet_history

/-- The `anomaly_score` accumulated by `detect_anomaly`: the three
`anomaly_score +=` steps (0.5, 0.3, 0.2), rendered as a sum of gated
contributions in source order. -/
def anomaly_score_val (transaction : Tx) (wallet_history : List Tx) : Rat :=
  (if fired_large transaction wallet_history then 1/2 else 0) +
  (if fired_unfamiliar transaction wallet_history then 3/10 else 0) +
  (if fired_frequent transaction wallet_history then 1/5 else 0)

/-- The `anomalies` list accumulated by `detect_anomaly`: the three
`anomalies.append` steps, rendered as concatenation in source order. -/
def anomalies_val (transaction : Tx) (wallet_history : List Tx) : List String :=
  (if fired_large transaction wallet_history then ["大额交易"] else []) ++
  (if fired_unfamiliar transaction wallet_history then ["陌生地址交易"] else []) ++
  (if fired_frequent transaction wallet_history then ["频繁交易"] else [])

/-- `DataProcessor.detect_anomaly`: weighted additive scoring.  The body is
total (its `try` block cannot raise on the modelled inputs), so the
`except` fallback `{}` is unreachable and not modelled. -/
def detect_anomaly (transaction : Tx) (wallet_history : List Tx) : AnomalyResult :=
  { anomaly_score := anomaly_score_val transaction wallet_history
    anomalies := anomalies_val transaction wallet_history
    risk_level := _calculate_risk_level (anomaly_score_val transaction wallet_history) }

/-! ## `backend/data/storage.py` — `DataStorage`

The SQLite database becomes a pair of row lists.  `INSERT OR IGNORE`
ignores a row that violates `UNIQUE` or `NOT NULL` and the surrounding
Python still returns `True`; the Python `except` branch (I/O failure,
returning `False`) is outside the model.  `id` columns are modelled with
the next row number; `created_at`-style columns are not modelled. -/

/-- Row of the `wallets` table: `address TEXT UNIQUE NOT NULL`,
`chain TEXT NOT NULL`, `is_active INTEGER DEFAULT 1`. -/
structure WalletRow where
  id : Nat
  address : String
  chain : String
  name : Option String
  description : Option String
  is_active : Int := 1
deriving DecidableEq, Repr

/-- Row of the `transactions` table: `hash TEXT UNIQUE NOT NULL`,
`wallet_address TEXT NOT NULL`, `chain TEXT NOT NULL`, the rest nullable
with the schema's defaults. -/
structure TxRow where
  id : Nat
  hash : String
  wallet_address : String
  chain : String
  from_address : Option String
  to_address : Option String
  amount : Rat
  status : String
  timestamp : Option Int
  block_number : Option Int
  block_hash : Option String
  gas_used : Option Int
  gas_price : Option Int
  input_data : Option String
  is_contract_interaction : Int
  contract_address : Option String
  anomaly_score : Rat
  risk_level : String
deriving DecidableEq, Repr

/-- The database state (the two tables the claims touch). -/
structure DB where
  wallets : List WalletRow := []
  transactions : List TxRow := []
deriving DecidableEq, Repr

/-- `DataStorage.add_wallet`: `INSERT OR IGNORE INTO wallets (address,
chain, name, description)`.  The schema's `UNIQUE` is on `address` alone,
so a duplicate `address` is ignored whatever its `chain`; the function
returns `True` either way. -/
def add_wallet (db : DB) (address chain : String)
    (name : Option String := none) (description : Option String := none) : DB × Bool :=
  if db.wallets.any (fun w => w.address == address) then (db, true)
  else
    ({ db with
        wallets := db.wallets ++
          [{ id := db.wallets.length + 1, address := address, chain := chain,
             name := name, description := description }] },
     true)

/-- The row `DataStorage.add_transaction` binds from the transaction dict
(under the stated non-null `hash`/`wallet_address`/`chain`). -/
def mkTxRow (db : DB) (t : Tx) (h w c : String) : TxRow :=
  { id := db.transactions.length + 1
    hash := h
    wallet_address := w
    chain := c
    from_address := t.from_address
    to_address := t.to_address
    amount := t.amount.getD 0
    status := t.status.getD "unknown"
    timestamp := t.timestamp
    block_number := t.block_number
    block_hash := t.block_hash
    gas_used := t.gas_used
    gas_price := t.gas_price
    input_data := t.input_data
    is_contract_interaction := if t.is_contract_interaction.getD false then 1 else 0
    contract_address := t.contract_address
    anomaly_score := t.anomaly_score.getD 0
    risk_level := t.risk_level.getD "low" }

/-- `DataStorage.add_transaction`: `INSERT OR IGNORE INTO transactions`.
A `NULL` in `hash`/`wallet_address`/`chain` violates `NOT NULL` and the
row is ignored; a duplicate `hash` violates `UNIQUE` and the row is
ignored; in every modelled case the function returns `True`. -/
def add_transaction (db : DB) (t : Tx) : DB × Bool :=
  match t.hash, t.wallet_address, t.chain with
  | some h, some w, some c =>
    if db.transactions.any (fun r => r.hash == h) then (db, true)
    else ({ db with transactions := db.transactions ++ [mkTxRow db t h w c] }, true)
  | _, _, _ => (db, true)

/-- Ordering key of `ORDER BY timestamp DESC` (SQLite puts `NULL`
timestamps last in descending order). -/
def tsDescBefore : Option Int → Option Int → Bool
  | none, none => true
  | none, some _ => false
  | some _, none => true
  | some a, some b => decide (a ≥ b)

/-- Insertion step of the descending-timestamp sort. -/
def insertTsDesc (r : TxRow) : List TxRow → List TxRow
  | [] => [r]
  | x :: xs => if tsDescBefore r.timestamp x.timestamp then r :: x :: xs
               else x :: insertTsDesc r xs

/-- The descending-timestamp sort (tie order is unspecified in SQLite;
this fixes one). -/
def sortTsDesc (rows : List TxRow) : List TxRow :=
  rows.foldr insertTsDesc []

/-- `DataStorage.get_transactions`: filter by wallet/chain when the
argument is truthy (Python `if wallet_address:` — `None` and `""` mean
"no filter"), `ORDER BY timestamp DESC LIMIT limit`. -/
def get_transactions (db : DB) (wallet_address chain : Option String := none)
    (limit : Nat := 100) : List TxRow :=
  let rowMatches := fun (r : TxRow) =>
    (match wallet_address with
     | none => true
     | some w => if w = "" then true else r.wallet_address == w) &&
    (match chain with
     | none => true
     | some c => if c = "" then true else r.chain == c)
  (sortTsDesc (db.transactions.filter rowMatches)).take limit

/-- Row dict of a stored transaction as later consumers (`detect_anomaly`
on history) see it: every key present.  The `id` key is dropped — no
consumer reads it. -/
def TxRow.toTx (r : TxRow) : Tx :=
  { chain := some r.chain
    timestamp := r.timestamp
    hash := some r.hash
    from_address := r.from_address
    to_address := r.to_address
    amount := some r.amount
    status := some r.status
    gas_used := r.gas_used
    gas_price := r.gas_price
    input_data := r.input_data
    block_number := r.block_number
    block_hash := r.block_hash
    is_contract_interaction := some (r.is_contract_interaction != 0)
    contract_address := r.contract_address
    wallet_address := some r.wallet_address
    anomaly_score := some r.anomaly_score
    risk_level := some r.risk_level }

/-! ## `backend/alert/engine.py` — `AlertRuleEngine`

The engine's state is its cached rule list (`self.rules`); the evaluation
entry points become functions of that list.  A rule dict's `threshold`
entry is the one place where "key absent" and "value `None`" behave
differently (`dict.get(key, default)` only substitutes the default for an
absent key), so it is modelled three-valued.  Rules loaded from the
database (`get_alert_rules` → `dict(row)`) always carry the key, with
`None` for a SQL `NULL`. -/

/-- The `threshold` entry of a rule dict: key absent, key present with
`None` (a SQL `NULL` threshold), or a number. -/
inductive ThresholdField where
  | absent
  | null
  | val (q : Rat)
deriving DecidableEq, Repr

/-- An alert rule dict as the engine sees it. -/
structure Rule where
  name : Option String := none
  rule_type : Option String := none
  threshold : ThresholdField := .absent
deriving DecidableEq, Repr

/-- `rule.get("threshold", default)`: the default replaces an absent key
only; a stored `None` passes through (and later arithmetic on it raises). -/
def Rule.getThreshold (r : Rule) (default : Rat) : Option Rat :=
  match r.threshold with
  | .absent => some default
  | .null => none
  | .val q => some q

/-- A Python exception the source's `try/except` swallows. -/
inductive PyErr where
  | typeError
deriving DecidableEq, Repr

/-- An alert draft dict returned by a `_evaluate_*_rule` helper. -/
structure Alert where
  wallet_address : Option String
  chain : Option String
  alert_type : String
  message : String
  risk_level : String
  transaction_hash : Option String := none
deriving DecidableEq, Repr

/-- The `try` body of `AlertRuleEngine._evaluate_transaction_rule`:
fires iff `amount > threshold`, severity `high` iff `amount > threshold*2`;
comparing against a `None` threshold raises `TypeError`. -/
def evalTransactionRuleBody (rule : Rule) (transaction : Tx) : Except PyErr (Option Alert) :=
  let amount := transaction.amount.getD 0
  match rule.getThreshold 0 with
  | none => .error .typeError
  | some threshold =>
    if amount > threshold then
      .ok (some
        { wallet_address := transaction.wallet_address
          chain := transaction.chain
          alert_type := "transaction"
          message := s!"交易金额超过阈值: ${amount} > ${threshold}"
          risk_level := if amount > threshold * 2 then "high" else "medium"
          transaction_hash := transaction.hash })
    else .ok none

/-- `AlertRuleEngine._evaluate_transaction_rule`: the `except` clause maps
any raised error to `None` (rule skipped, nothing propagated). -/
def _evaluate_transaction_rule (rule : Rule) (transaction : Tx) : Option Alert :=
  match evalTransactionRuleBody rule transaction with
  | .ok v => v
  | .error _ => none

/-- `AlertRuleEngine.evaluate_transaction`: loop over the cached rules,
evaluate the `transaction`-typed ones, collect truthy results. -/
def evaluate_transaction (rules : List Rule) (transaction : Tx) : List Alert :=
  rules.filterMap (fun rule =>
    if rule.rule_type == some "transaction" then _evaluate_transaction_rule rule transaction
    else none)

/-- The inline mean of `AlertRuleEngine._evaluate_anomaly_rule`:
`sum(tx.get("amount", 0) for tx in wallet_history) / len(wallet_history)`
(evaluated only under the non-empty guard). -/
def engine_avg_amount (wallet_history : List Tx) : Rat :=
  (wallet_history.map (fun tx => tx.amount.getD 0)).sum / wallet_history.length

/-- The `try` body of `AlertRuleEngine._evaluate_anomaly_rule`: on a
truthy (non-empty) history, fire iff
`current_amount > avg_amount * rule.get("threshold", 3)`, severity always
`high`; multiplying by a `None` threshold raises `TypeError`. -/
def evalAnomalyRuleBody (rule : Rule) (transaction : Tx) (wallet_history : List Tx) :
    Except PyErr (Option Alert) :=
  if wallet_history = [] then .ok none
  else
    let avg_amount := engine_avg_amount wallet_history
    let current_amount := transaction.amount.getD 0
    match rule.getThreshold 3 with
    | none => .error .typeError
    | some threshold =>
      if current_amount > avg_amount * threshold then
        .ok (some
          { wallet_address := transaction.wallet_address
            chain := transaction.chain
            alert_type := "anomaly"
            message := s!"检测到异常交易: ${current_amount} (平均: ${avg_amount})"
            risk_level := "high"
            transaction_hash := transaction.hash })
      else .ok none

/-- `AlertRuleEngine._evaluate_anomaly_rule`: the `except` clause maps any
raised error to `None` (rule skipped, nothing propagated). -/
def _evaluate_anomaly_rule (rule : Rule) (transaction : Tx) (wallet_history : List Tx) :
    Option Alert :=
  match evalAnomalyRuleBody rule transaction wallet_history with
  | .ok v => v
  | .error _ => none

/-- `AlertRuleEngine.evaluate_anomaly`: loop over the cached rules,
evaluate the `anomaly`-typed ones, collect truthy results. -/
def evaluate_anomaly (rules : List Rule) (transaction : Tx) (wallet_history : List Tx) :
    List Alert :=
  rules.filterMap (fun rule =>
    if rule.rule_type == some "anomaly" then _evaluate_anomaly_rule rule transaction wallet_history
    else none)

/-! ## `backend/data/processor.py` — `DataProcessor.clean_transaction`
and `backend/api/transactions.py` — `sync_transactions`

A raw chain payload is a dict; the structure below carries every key the
chain-dispatched extractors read (`none` = absent).  Python `x or y`
returns `y` when `x` is falsy (`None`, `""`, `0`). -/

/-- A raw transaction dict as returned by a chain client.  `from_key` and
`to_key` model the dict keys `"from"` and `"to"` (reserved words here). -/
structure RawTx where
  hash : Option String := none
  transactionHash : Option String := none
  from_key : Option String := none
  fromAddress : Option String := none
  to_key : Option String := none
  toAddress : Option String := none
  value : Option Rat := none
  blockTime : Option Int := none
  timestamp : Option Int := none
  status : Option String := none
  gasUsed : Option Int := none
  gasPrice : Option Int := none
  input : Option String := none
  blockNumber : Option Int := none
  blockHash : Option String := none
  signature : Option String := none
  block_time : Option Int := none
  amount : Option Rat := none
  slot : Option Int := none
deriving DecidableEq, Repr

/-- Python `a or b` on optional strings (`None` and `""` are falsy). -/
def pyOrStr (a b : Option String) : Option String :=
  match a with
  | none => b
  | some s => if s = "" then b else some s

/-- Python `a or b` on optional ints (`None` and `0` are falsy). -/
def pyOrInt (a b : Option Int) : Option Int :=
  match a with
  | none => b
  | some v => if v = 0 then b else some v

/-- `DataProcessor.clean_transaction`: chain-dispatched field extraction
(`_extract_timestamp`, `_extract_tx_hash`, … inlined per their
definitions).  All extractors are total on the modelled dicts, so the
`except` fallback `{}` is unreachable. -/
def clean_transaction (transaction : RawTx) (chain_type : String) : Tx :=
  { chain := some chain_type
    timestamp :=
      if chain_type = "ethereum" then pyOrInt transaction.blockTime transaction.timestamp
      else if chain_type = "solana" then transaction.block_time
      else none
    hash :=
      if chain_type = "ethereum" then pyOrStr transaction.hash transaction.transactionHash
      else if chain_type = "solana" then transaction.signature
      else none
    from_address :=
      if chain_type = "ethereum" then pyOrStr transaction.from_key transaction.fromAddress
      else none
    to_address :=
      if chain_type = "ethereum" then pyOrStr transaction.to_key transaction.toAddress
      else none
    amount := some
      (if chain_type = "ethereum" then transaction.value.getD 0
       else if chain_type = "solana" then transaction.amount.getD 0
       else 0)
    status := some
      (if chain_type = "ethereum" ∨ chain_type = "solana" then transaction.status.getD "unknown"
       else "unknown")
    gas_used := if chain_type = "ethereum" then transaction.gasUsed else none
    gas_price := if chain_type = "ethereum" then transaction.gasPrice else none
    input_data := if chain_type = "ethereum" then transaction.input else none
    block_number :=
      if chain_type = "ethereum" then transaction.blockNumber
      else if chain_type = "solana" then transaction.slot
      else none
    block_hash := if chain_type = "ethereum" then transaction.blockHash else none
    is_contract_interaction := some
      (if chain_type = "ethereum" then decide ((transaction.input.getD "").length > 2) else false)
    contract_address := if chain_type = "ethereum" then transaction.to_key else none
    wallet_address := none
    anomaly_score := none
    risk_level := none }

/-- The transaction dict one iteration of the sync loop passes to
`add_transaction` (`backend/api/transactions.py`): clean, set
`wallet_address`, score against the stored history, attach score and
risk. -/
def syncCleaned (wallet_address chain : String) (db : DB) (tx : RawTx) : Tx :=
  let cleaned := clean_transaction tx chain
  let cleaned1 := { cleaned with wallet_address := some wallet_address }
  let wallet_history := (get_transactions db (some wallet_address) (some chain) 100).map TxRow.toTx
  let anomaly_result := detect_anomaly cleaned1 wallet_history
  { cleaned1 with
    anomaly_score := some anomaly_result.anomaly_score
    risk_level := some anomaly_result.risk_level }

/-- One iteration of the sync loop in `sync_transactions`: store the
cleaned, scored transaction. -/
def sync_process_one (wallet_address chain : String) (db : DB) (tx : RawTx) : DB × Bool :=
  add_transaction db (syncCleaned wallet_address chain db tx)

/-- One fold step of the sync loop: thread the database, bump
`synced_count` when `add_transaction` returned `True`. -/
def sync_fold_step (wallet_address chain : String) (acc : DB × Nat) (tx : RawTx) : DB × Nat :=
  let step := sync_process_one wallet_address chain acc.1 tx
  (step.1, if step.2 then acc.2 + 1 else acc.2)

/-- The sync loop of `sync_transactions`: fold over the raw batch fetched
from the chain client (the adapter fetch itself is the excluded external
collaborator), counting iterations whose `add_transaction` returned
`True`. -/
def sync_transactions (wallet_address chain : String) (db : DB) (raws : List RawTx) : DB × Nat :=
  raws.foldl (sync_fold_step wallet_address chain) (db, 0)

/-! ## Shared lemmas about `detect_anomaly` -/

lemma mem_anomalies_large (tx : Tx) (hist : List Tx) :
    "大额交易" ∈ anomalies_val tx hist ↔ fired_large tx hist = true := by
  unfold anomalies_val
  cases h1 : fired_large tx hist <;> cases h2 : fired_unfamiliar tx hist <;>
    cases h3 : fired_frequent tx hist <;> simp

lemma mem_anomalies_frequent (tx : Tx) (hist : List Tx) :
    "频繁交易" ∈ anomalies_val tx hist ↔ fired_frequent tx hist = true := by
  unfold anomalies_val
  cases h1 : fired_large tx hist <;> cases h2 : fired_unfamiliar tx hist <;>
    cases h3 : fired_frequent tx hist <;> simp

lemma gated_half_mono (b₁ b₂ : Bool) (himp : b₁ = true → b₂ = true) :
    (if b₁ then (1:Rat)/2 else 0) ≤ (if b₂ then (1:Rat)/2 else 0) := by
  cases b₁ <;> cases b₂ <;> simp_all

lemma recentFilter_eq_window (t : Int) (r : Tx) :
    recentFilter t r = (match r.timestamp with
      | none => false
      | some u => decide (u ≠ 0 ∧ t - 3600 < u)) := by
  unfold recentFilter
  cases hu : r.timestamp with
  | none => rfl
  | some u =>
    by_cases h0 : u = 0
    · simp [h0]
    · simp only [if_neg h0, decide_eq_decide]
      constructor
      · intro h; exact ⟨h0, by omega⟩
      · intro h; omega

/-! ## Claim theorems: the anomaly scorer -/

/-- C10: every transaction whose `to_address` is `None` or absent fires the
unfamiliar-counterparty factor (+0.3) regardless of the history, so its
anomaly score is at least 0.3. -/
theorem claim_C10_no_counterparty_floor (tx : Tx) (hist : List Tx)
    (h : tx.to_address = none) :
    (3:Rat)/10 ≤ (detect_anomaly tx hist).anomaly_score := by
  have hu : fired_unfamiliar tx hist = true := by
    simp [fired_unfamiliar, _is_familiar_address, h]
  show (3:Rat)/10 ≤ anomaly_score_val tx hist
  unfold anomaly_score_val
  rw [hu]
  have h1 : (0:Rat) ≤ if fired_large tx hist then 1/2 else 0 := by split <;> norm_num
  have h3 : (0:Rat) ≤ if fired_frequent tx hist then 1/5 else 0 := by split <;> norm_num
  simp only [if_true]
  linarith

/-- C10 witness: concrete instance of `claim_C10_no_counterparty_floor`. -/
theorem claim_C10_witness :
    (3:Rat)/10 ≤ (detect_anomaly { amount := some 7 } []).anomaly_score :=
  claim_C10_no_counterparty_floor { amount := some 7 } [] rfl

/-- C8: for a fixed history, increasing the amount (all other fields held
fixed) never decreases the anomaly score returned by `detect_anomaly`. -/
theorem claim_C8_amount_monotone (tx : Tx) (a₁ a₂ : Option Rat) (hist : List Tx)
    (h : a₁.getD 0 ≤ a₂.getD 0) :
    (detect_anomaly { tx with amount := a₁ } hist).anomaly_score ≤
      (detect_anomaly { tx with amount := a₂ } hist).anomaly_score := by
  show anomaly_score_val _ _ ≤ anomaly_score_val _ _
  unfold anomaly_score_val
  have he2 : fired_unfamiliar { tx with amount := a₁ } hist
      = fired_unfamiliar { tx with amount := a₂ } hist := rfl
  have he3 : fired_frequent { tx with amount := a₁ } hist
      = fired_frequent { tx with amount := a₂ } hist := rfl
  rw [he2, he3]
  have h1 : fired_large { tx with amount := a₁ } hist = true →
      fired_large { tx with amount := a₂ } hist = true := by
    simp only [fired_large, decide_eq_true_eq]
    intro hlt
    exact lt_of_lt_of_le hlt h
  have hm := gated_half_mono _ _ h1
  linarith

/-- C8 witness: concrete instance of `claim_C8_amount_monotone`. -/
theorem claim_C8_witness :
    (detect_anomaly { amount := some 1 } []).anomaly_score ≤
      (detect_anomaly { amount := some 2 } []).anomaly_score :=
  claim_C8_amount_monotone {} (some 1) (some 2) [] (by norm_num)

/-- C2 counterexample: against an empty history, a transaction of amount 5
does fire the large-amount factor (`_calculate_avg_amount` returns 0 for an
empty history, and 5 > 0×3), giving score 0.5 + 0.3 = 0.8 — refuting
"never fires the large-amount factor with no history". -/
theorem claim_C2_counterexample :
    (detect_anomaly { amount := some 5, to_address := some "x" } []).anomalies
        = ["大额交易", "陌生地址交易"] ∧
    (detect_anomaly { amount := some 5, to_address := some "x" } []).anomaly_score = 4/5 := by
  constructor <;>
    norm_num [detect_anomaly, anomalies_val, anomaly_score_val, fired_large,
      fired_unfamiliar, fired_frequent, _calculate_avg_amount, _is_familiar_address,
      _is_frequent_transaction]

/-- C2 amended: with an empty history `detect_anomaly` treats the mean as 0
(`_calculate_avg_amount` returns 0 without dividing), so it never divides
by zero, but the large-amount factor (+0.5) fires exactly when the
transaction amount is positive — it is not skipped. -/
theorem claim_C2_empty_history (tx : Tx) :
    ("大额交易" ∈ (detect_anomaly tx []).anomalies ↔ 0 < tx.amount.getD 0) ∧
    _calculate_avg_amount [] = 0 := by
  refine ⟨?_, by simp [_calculate_avg_amount]⟩
  rw [show (detect_anomaly tx []).anomalies = anomalies_val tx [] from rfl,
    mem_anomalies_large]
  simp [fired_large, _calculate_avg_amount]

/-- C6 counterexample: a transaction at timestamp 1000 scored against 11
history entries all timestamped 2000 — strictly after the transaction, so
outside any trailing window ending at 1000 — still fires the frequency
factor, because the code only checks `timestamp - u < 3600`, which holds
for every later entry. -/
theorem claim_C6_counterexample :
    ("频繁交易" ∈ (detect_anomaly { amount := some 0, timestamp := some 1000, to_address := some "a" }
        (List.replicate 11 { amount := some 0, timestamp := some 2000 })).anomalies) ∧
    (List.replicate 11 ({ amount := some 0, timestamp := some 2000 } : Tx)).map
        (fun r => r.timestamp) = List.replicate 11 (some 2000) ∧
    (1000:Int) < 2000 := by
  refine ⟨?_, by decide, by decide⟩
  rw [show ∀ a b, (detect_anomaly a b).anomalies = anomalies_val a b from fun a b => rfl,
    mem_anomalies_frequent]
  decide

/-- C6 amended: the frequency factor (+0.2) fires iff the history is
non-empty, the transaction timestamp is truthy (neither `None` nor 0), and
strictly more than 10 history entries have a truthy timestamp `u` with
`u > tx.timestamp − 3600` — a window with no upper end, so entries later
than `tx.timestamp` also count. -/
theorem claim_C6_frequency_window (tx : Tx) (hist : List Tx) :
    "频繁交易" ∈ (detect_anomaly tx hist).anomalies ↔
      (hist ≠ [] ∧ ∃ t, tx.timestamp = some t ∧ t ≠ 0 ∧
        10 < (hist.filter (fun r =>
          match r.timestamp with
          | none => false
          | some u => decide (u ≠ 0 ∧ t - 3600 < u))).length) := by
  rw [show (detect_anomaly tx hist).anomalies = anomalies_val tx hist from rfl,
    mem_anomalies_frequent]
  unfold fired_frequent _is_frequent_transaction
  by_cases hh : hist = []
  · simp [hh]
  · cases ht : tx.timestamp with
    | none => simp [hh, ht]
    | some t =>
      have hf : hist.filter (recentFilter t) = hist.filter (fun r =>
          match r.timestamp with
          | none => false
          | some u => decide (u ≠ 0 ∧ t - 3600 < u)) :=
        List.filter_congr (fun x _ => recentFilter_eq_window t x)
      by_cases ht0 : t = 0
      · simp [hh, ht, ht0]
      · simp [hh, ht, ht0, hf]

/-! ## Shared lemmas about rule thresholds -/

lemma getThreshold_val (r : Rule) (t d : Rat) (h : r.threshold = ThresholdField.val t) :
    r.getThreshold d = some t := by
  unfold Rule.getThreshold; rw [h]

lemma getThreshold_absent (r : Rule) (d : Rat) (h : r.threshold = ThresholdField.absent) :
    r.getThreshold d = some d := by
  unfold Rule.getThreshold; rw [h]

lemma getThreshold_null (r : Rule) (d : Rat) (h : r.threshold = ThresholdField.null) :
    r.getThreshold d = none := by
  unfold Rule.getThreshold; rw [h]

/-! ## Claim theorems: the rule engine -/

/-- C7: a `transaction`-type rule with numeric threshold `t` fires iff
`amount > t` (strict — equality does not fire), with severity `high`
exactly when `amount > 2t` and `medium` otherwise; the engine-level result
on such a rule is exactly the per-rule result. -/
theorem claim_C7_transaction_threshold (rule : Rule) (t : Rat) (tx : Tx)
    (hty : rule.rule_type = some "transaction") (hth : rule.threshold = ThresholdField.val t) :
    ((_evaluate_transaction_rule rule tx).isSome ↔ tx.amount.getD 0 > t) ∧
    (∀ a, _evaluate_transaction_rule rule tx = some a →
      a.risk_level = if tx.amount.getD 0 > t * 2 then "high" else "medium") ∧
    evaluate_transaction [rule] tx = (_evaluate_transaction_rule rule tx).toList := by
  have hg := getThreshold_val rule t 0 hth
  refine ⟨?_, ?_, ?_⟩
  · unfold _evaluate_transaction_rule evalTransactionRuleBody
    rw [hg]
    by_cases hgt : tx.amount.getD 0 > t <;> simp [hgt]
  · intro a ha
    unfold _evaluate_transaction_rule evalTransactionRuleBody at ha
    rw [hg] at ha
    by_cases hgt : tx.amount.getD 0 > t
    · simp only [if_pos hgt] at ha
      simp at ha
      rw [← ha]
    · simp [hgt] at ha
  · unfold evaluate_transaction
    cases h : _evaluate_transaction_rule rule tx <;> simp [hty, h]

/-- C7 witness: `claim_C7_transaction_threshold` at threshold 100 and
amount 201 (fires, and 201 > 200 ⇒ severity `high`). -/
theorem claim_C7_witness :
    ((_evaluate_transaction_rule
        { rule_type := some "transaction", threshold := ThresholdField.val 100 }
        { amount := some 201 }).isSome ↔ (201:Rat) > 100) ∧
    (∀ a, _evaluate_transaction_rule
        { rule_type := some "transaction", threshold := ThresholdField.val 100 }
        { amount := some 201 } = some a →
      a.risk_level = if (201:Rat) > 100 * 2 then "high" else "medium") ∧
    evaluate_transaction [{ rule_type := some "transaction", threshold := ThresholdField.val 100 }]
        { amount := some 201 } =
      (_evaluate_transaction_rule
        { rule_type := some "transaction", threshold := ThresholdField.val 100 }
        { amount := some 201 }).toList :=
  claim_C7_transaction_threshold
    { rule_type := some "transaction", threshold := ThresholdField.val 100 }
    100 { amount := some 201 } rfl rfl

/-- C5 counterexample: an `anomaly` rule whose threshold is unset in the
database (SQL `NULL`, so the rule dict carries `threshold = None`) fires no
alert on a transaction of amount 100 against history mean 1, even though
100 > 3 × 1: `rule.get("threshold", 3)` returns `None` (the key is
present), the multiplication raises `TypeError`, and the rule is skipped —
the default of 3 is never applied. -/
theorem claim_C5_counterexample :
    evaluate_anomaly [{ rule_type := some "anomaly", threshold := ThresholdField.null }]
        { amount := some 100 } [{ amount := some 1 }] = [] ∧
    (100:Rat) > 3 * engine_avg_amount [{ amount := some 1 }] := by
  constructor
  · simp [evaluate_anomaly, _evaluate_anomaly_rule, evalAnomalyRuleBody, Rule.getThreshold]
  · norm_num [engine_avg_amount]

/-- C5 amended: the default threshold 3 applies only when the `threshold`
key is absent from the rule dict; such a rule fires iff
`amount > mean(history) × 3` with severity always `high`.  A rule whose
threshold is `None` (as every DB-loaded rule with an unset threshold is)
never fires — the `TypeError` is swallowed and the rule skipped. -/
theorem claim_C5_anomaly_threshold_default (rule : Rule) (tx : Tx) (hist : List Tx)
    (hty : rule.rule_type = some "anomaly") (hne : hist ≠ []) :
    (rule.threshold = ThresholdField.absent →
      (((_evaluate_anomaly_rule rule tx hist).isSome ↔
          tx.amount.getD 0 > engine_avg_amount hist * 3) ∧
        ∀ a, _evaluate_anomaly_rule rule tx hist = some a → a.risk_level = "high")) ∧
    (rule.threshold = ThresholdField.null → _evaluate_anomaly_rule rule tx hist = none) ∧
    evaluate_anomaly [rule] tx hist = (_evaluate_anomaly_rule rule tx hist).toList := by
  refine ⟨?_, ?_, ?_⟩
  · intro habs
    have hg := getThreshold_absent rule 3 habs
    constructor
    · unfold _evaluate_anomaly_rule evalAnomalyRuleBody
      rw [if_neg hne, hg]
      by_cases hgt : tx.amount.getD 0 > engine_avg_amount hist * 3 <;> simp [hgt]
    · intro a ha
      unfold _evaluate_anomaly_rule evalAnomalyRuleBody at ha
      rw [if_neg hne, hg] at ha
      by_cases hgt : tx.amount.getD 0 > engine_avg_amount hist * 3
      · simp only [if_pos hgt] at ha
        simp at ha
        rw [← ha]
      · simp [hgt] at ha
  · intro hnull
    have hg := getThreshold_null rule 3 hnull
    unfold _evaluate_anomaly_rule evalAnomalyRuleBody
    rw [if_neg hne, hg]
  · unfold evaluate_anomaly
    cases h : _evaluate_anomaly_rule rule tx hist <;> simp [hty, h]

/-- C5 witness: `claim_C5_anomaly_threshold_default` at an absent-key rule,
amount 100, history mean 1. -/
theorem claim_C5_witness :
    (({ rule_type := some "anomaly" } : Rule).threshold = ThresholdField.absent →
      (((_evaluate_anomaly_rule { rule_type := some "anomaly" }
            { amount := some 100 } [{ amount := some 1 }]).isSome ↔
          (100:Rat) > engine_avg_amount [{ amount := some 1 }] * 3) ∧
        ∀ a, _evaluate_anomaly_rule { rule_type := some "anomaly" }
            { amount := some 100 } [{ amount := some 1 }] = some a →
          a.risk_level = "high")) ∧
    (({ rule_type := some "anomaly" } : Rule).threshold = ThresholdField.null →
      _evaluate_anomaly_rule { rule_type := some "anomaly" }
        { amount := some 100 } [{ amount := some 1 }] = none) ∧
    evaluate_anomaly [{ rule_type := some "anomaly" }]
        { amount := some 100 } [{ amount := some 1 }] =
      (_evaluate_anomaly_rule { rule_type := some "anomaly" }
        { amount := some 100 } [{ amount := some 1 }]).toList :=
  claim_C5_anomaly_threshold_default { rule_type := some "anomaly" }
    { amount := some 100 } [{ amount := some 1 }] rfl (by simp)

/-- C9: a malformed rule (`threshold` = `None` where a number is required)
is skipped for the current evaluation only: it produces no alert (the
raised `TypeError` is caught inside the per-rule helper, so nothing
propagates to the caller), and the other rules evaluate exactly as they
would without it. -/
theorem claim_C9_malformed_rule_skipped (rules₁ rules₂ : List Rule) (bad : Rule)
    (tx : Tx) (hist : List Tx) (hbad : bad.threshold = ThresholdField.null) :
    _evaluate_transaction_rule bad tx = none ∧
    _evaluate_anomaly_rule bad tx hist = none ∧
    evaluate_transaction (rules₁ ++ bad :: rules₂) tx
      = evaluate_transaction (rules₁ ++ rules₂) tx ∧
    evaluate_anomaly (rules₁ ++ bad :: rules₂) tx hist
      = evaluate_anomaly (rules₁ ++ rules₂) tx hist := by
  have hg0 := getThreshold_null bad 0 hbad
  have hg3 := getThreshold_null bad 3 hbad
  have h1 : _evaluate_transaction_rule bad tx = none := by
    unfold _evaluate_transaction_rule evalTransactionRuleBody
    rw [hg0]
  have h2 : _evaluate_anomaly_rule bad tx hist = none := by
    unfold _evaluate_anomaly_rule evalAnomalyRuleBody
    by_cases hh : hist = []
    · rw [if_pos hh]
    · rw [if_neg hh, hg3]
  refine ⟨h1, h2, ?_, ?_⟩
  · unfold evaluate_transaction
    simp [List.filterMap_append, List.filterMap_cons, h1]
  · unfold evaluate_anomaly
    simp [List.filterMap_append, List.filterMap_cons, h2]

/-- C9 witness: `claim_C9_malformed_rule_skipped` with one healthy rule
before a `None`-threshold rule. -/
theorem claim_C9_witness :
    _evaluate_transaction_rule { rule_type := some "transaction", threshold := ThresholdField.null }
        { amount := some 50 } = none ∧
    _evaluate_anomaly_rule { rule_type := some "transaction", threshold := ThresholdField.null }
        { amount := some 50 } [] = none ∧
    evaluate_transaction
        ([{ rule_type := some "transaction", threshold := ThresholdField.val 10 }] ++
          { rule_type := some "transaction", threshold := ThresholdField.null } :: [])
        { amount := some 50 }
      = evaluate_transaction
          ([{ rule_type := some "transaction", threshold := ThresholdField.val 10 }] ++ [])
          { amount := some 50 } ∧
    evaluate_anomaly
        ([{ rule_type := some "transaction", threshold := ThresholdField.val 10 }] ++
          { rule_type := some "transaction", threshold := ThresholdField.null } :: [])
        { amount := some 50 } []
      = evaluate_anomaly
          ([{ rule_type := some "transaction", threshold := ThresholdField.val 10 }] ++ [])
          { amount := some 50 } [] :=
  claim_C9_malformed_rule_skipped
    [{ rule_type := some "transaction", threshold := ThresholdField.val 10 }] []
    { rule_type := some "transaction", threshold := ThresholdField.null }
    { amount := some 50 } [] rfl

/-! ## Claim theorems: the store -/

/-- C3: inserting the same transaction hash twice yields exactly one
stored row with that hash; the second insert returns `True` and leaves the
entire database — in particular the first row — unmodified. -/
theorem claim_C3_insert_idempotent (db : DB) (t₁ t₂ : Tx) (h : String)
    (hh₁ : t₁.hash = some h) (hw : t₁.wallet_address.isSome = true)
    (hc : t₁.chain.isSome = true) (hh₂ : t₂.hash = some h)
    (hfresh : db.transactions.any (fun r => r.hash == h) = false) :
    (add_transaction db t₁).2 = true ∧
    (add_transaction (add_transaction db t₁).1 t₂).2 = true ∧
    (add_transaction (add_transaction db t₁).1 t₂).1 = (add_transaction db t₁).1 ∧
    ((add_transaction (add_transaction db t₁).1 t₂).1.transactions.filter
        (fun r => r.hash == h)).length = 1 := by
  obtain ⟨w, hww⟩ := Option.isSome_iff_exists.mp hw
  obtain ⟨c, hcc⟩ := Option.isSome_iff_exists.mp hc
  have hd1 : add_transaction db t₁
      = ({ db with transactions := db.transactions ++ [mkTxRow db t₁ h w c] }, true) := by
    simp [add_transaction, hh₁, hww, hcc, hfresh]
  have hany : ((db.transactions ++ [mkTxRow db t₁ h w c]).any (fun r => r.hash == h)) = true := by
    simp [mkTxRow]
  have hd2 : add_transaction (add_transaction db t₁).1 t₂ = ((add_transaction db t₁).1, true) := by
    rw [hd1]
    unfold add_transaction
    rw [hh₂]
    cases hw2 : t₂.wallet_address with
    | none => rfl
    | some w2 =>
      cases hc2 : t₂.chain with
      | none => rfl
      | some c2 => simp [hany]
  have hnil : db.transactions.filter (fun r => r.hash == h) = [] := by
    rw [List.filter_eq_nil_iff]
    intro r hr
    have := List.any_eq_false.mp hfresh r hr
    simpa using this
  refine ⟨by rw [hd1], by rw [hd2], by rw [hd2], ?_⟩
  rw [hd2, hd1]
  simp [List.filter_append, hnil, mkTxRow]

/-- C3 witness: `claim_C3_insert_idempotent` on an empty database and a
concrete hash. -/
theorem claim_C3_witness :
    (add_transaction { } { hash := some "h1", wallet_address := some "w", chain := some "c" }).2 = true ∧
    (add_transaction
        (add_transaction { } { hash := some "h1", wallet_address := some "w", chain := some "c" }).1
        { hash := some "h1" }).2 = true ∧
    (add_transaction
        (add_transaction { } { hash := some "h1", wallet_address := some "w", chain := some "c" }).1
        { hash := some "h1" }).1
      = (add_transaction { } { hash := some "h1", wallet_address := some "w", chain := some "c" }).1 ∧
    ((add_transaction
        (add_transaction { } { hash := some "h1", wallet_address := some "w", chain := some "c" }).1
        { hash := some "h1" }).1.transactions.filter
      (fun r => r.hash == "h1")).length = 1 :=
  claim_C3_insert_idempotent { }
    { hash := some "h1", wallet_address := some "w", chain := some "c" }
    { hash := some "h1" } "h1" rfl rfl rfl rfl rfl

/-- C4 counterexample: registering the same address on two different
chains stores only one wallet row — the schema declares `address TEXT
UNIQUE` (address alone, not `(address, chain)`), so the second
registration is silently ignored, refuting "both registrations are
stored". -/
theorem claim_C4_counterexample :
    ((add_wallet (add_wallet { } "0xabc" "ethereum").1 "0xabc" "solana").1).wallets.length = 1 := by
  simp [add_wallet]

/-- C4 amended: stored wallet identity is the address alone.  Registering
an already-stored address a second time — with the same or a different
chain — returns `True`, changes nothing, and leaves exactly one row with
that address. -/
theorem claim_C4_wallet_identity (db : DB) (a c₁ c₂ : String)
    (n₁ d₁ n₂ d₂ : Option String)
    (hfresh : db.wallets.any (fun w => w.address == a) = false) :
    (add_wallet db a c₁ n₁ d₁).2 = true ∧
    (add_wallet (add_wallet db a c₁ n₁ d₁).1 a c₂ n₂ d₂).2 = true ∧
    (add_wallet (add_wallet db a c₁ n₁ d₁).1 a c₂ n₂ d₂).1 = (add_wallet db a c₁ n₁ d₁).1 ∧
    ((add_wallet (add_wallet db a c₁ n₁ d₁).1 a c₂ n₂ d₂).1.wallets.filter
        (fun w => w.address == a)).length = 1 := by
  have hd1 : add_wallet db a c₁ n₁ d₁
      = ({ db with wallets := db.wallets ++
          [{ id := db.wallets.length + 1, address := a, chain := c₁,
             name := n₁, description := d₁ }] }, true) := by
    simp [add_wallet, hfresh]
  have hd2 : add_wallet (add_wallet db a c₁ n₁ d₁).1 a c₂ n₂ d₂
      = ((add_wallet db a c₁ n₁ d₁).1, true) := by
    rw [hd1]
    unfold add_wallet
    simp
  have hnil : db.wallets.filter (fun w => w.address == a) = [] := by
    rw [List.filter_eq_nil_iff]
    intro r hr
    have := List.any_eq_false.mp hfresh r hr
    simpa using this
  refine ⟨by rw [hd1], by rw [hd2], by rw [hd2], ?_⟩
  rw [hd2, hd1]
  simp [List.filter_append, hnil]

/-- C4 witness: `claim_C4_wallet_identity` on an empty database with
chains `ethereum` and `solana`. -/
theorem claim_C4_witness :
    (add_wallet { } "0xabc" "ethereum" none none).2 = true ∧
    (add_wallet (add_wallet { } "0xabc" "ethereum" none none).1 "0xabc" "solana" none none).2 = true ∧
    (add_wallet (add_wallet { } "0xabc" "ethereum" none none).1 "0xabc" "solana" none none).1
      = (add_wallet { } "0xabc" "ethereum" none none).1 ∧
    ((add_wallet (add_wallet { } "0xabc" "ethereum" none none).1 "0xabc" "solana" none none).1.wallets.filter
        (fun w => w.address == "0xabc")).length = 1 :=
  claim_C4_wallet_identity { } "0xabc" "ethereum" "solana" none none none none rfl

/-! ## Shared lemmas about the sync loop -/

def dbHasHash (db : DB) (h : String) : Bool :=
  db.transactions.any (fun r => r.hash == h)

lemma add_transaction_none (db : DB) (t : Tx) (hh : t.hash = none) :
    add_transaction db t = (db, true) := by
  unfold add_transaction
  rw [hh]

lemma add_transaction_dup (db : DB) (t : Tx) (h : String) (hh : t.hash = some h)
    (hdup : dbHasHash db h = true) :
    add_transaction db t = (db, true) := by
  unfold add_transaction
  rw [hh]
  cases hw : t.wallet_address with
  | none => rfl
  | some w =>
    cases hc : t.chain with
    | none => rfl
    | some c =>
      unfold dbHasHash at hdup
      simp [hdup]

lemma add_transaction_fresh (db : DB) (t : Tx) (h w c : String) (hh : t.hash = some h)
    (hw : t.wallet_address = some w) (hc : t.chain = some c)
    (hfr : dbHasHash db h = false) :
    add_transaction db t
      = ({ db with transactions := db.transactions ++ [mkTxRow db t h w c] }, true) := by
  unfold dbHasHash at hfr
  simp [add_transaction, hh, hw, hc, hfr]

lemma add_transaction_snd (db : DB) (t : Tx) : (add_transaction db t).2 = true := by
  cases hh : t.hash with
  | none => rw [add_transaction_none db t hh]
  | some h =>
    cases hd : dbHasHash db h with
    | true => rw [add_transaction_dup db t h hh hd]
    | false =>
      cases hw : t.wallet_address with
      | none => unfold add_transaction; rw [hh, hw]
      | some w =>
        cases hc : t.chain with
        | none => unfold add_transaction; rw [hh, hw, hc]
        | some c => rw [add_transaction_fresh db t h w c hh hw hc hd]

lemma syncCleaned_hash (w c : String) (db : DB) (r : RawTx) :
    (syncCleaned w c db r).hash = (clean_transaction r c).hash := rfl

lemma syncCleaned_wallet (w c : String) (db : DB) (r : RawTx) :
    (syncCleaned w c db r).wallet_address = some w := rfl

lemma syncCleaned_chain (w c : String) (db : DB) (r : RawTx) :
    (syncCleaned w c db r).chain = some c := rfl

lemma sync_process_one_snd (w c : String) (db : DB) (r : RawTx) :
    (sync_process_one w c db r).2 = true :=
  add_transaction_snd db (syncCleaned w c db r)

lemma sync_count_aux (w c : String) :
    ∀ (raws : List RawTx) (db : DB) (n : Nat),
      (raws.foldl (sync_fold_step w c) (db, n)).2 = n + raws.length := by
  intro raws
  induction raws with
  | nil => intro db n; simp
  | cons r rs ih =>
    intro db n
    rw [List.foldl_cons]
    have hstep : sync_fold_step w c (db, n) r = ((sync_process_one w c db r).1, n + 1) := by
      have e : sync_fold_step w c (db, n) r
          = ((sync_process_one w c db r).1,
             if (sync_process_one w c db r).2 then n + 1 else n) := rfl
      rw [e, sync_process_one_snd, if_pos rfl]
    rw [hstep, ih]
    simp [List.length_cons]
    omega

lemma sync_count (w c : String) (db : DB) (raws : List RawTx) :
    (sync_transactions w c db raws).2 = raws.length := by
  unfold sync_transactions
  rw [sync_count_aux]
  omega

lemma sync_foldl_fst (w c : String) :
    ∀ (raws : List RawTx) (db : DB) (n : Nat),
      (raws.foldl (sync_fold_step w c) (db, n)).1
        = (raws.foldl (sync_fold_step w c) (db, 0)).1 := by
  intro raws
  induction raws with
  | nil => intros; rfl
  | cons r rs ih =>
    intro db n
    rw [List.foldl_cons, List.foldl_cons]
    have e1 : sync_fold_step w c (db, n) r
        = ((sync_process_one w c db r).1,
           if (sync_process_one w c db r).2 then n + 1 else n) := rfl
    have e0 : sync_fold_step w c (db, 0) r
        = ((sync_process_one w c db r).1,
           if (sync_process_one w c db r).2 then 0 + 1 else 0) := rfl
    rw [e1, e0]
    exact (ih _ _).trans (ih _ _).symm

lemma sync_fst_cons (w c : String) (r : RawTx) (rs : List RawTx) (db : DB) :
    (sync_transactions w c db (r :: rs)).1
      = (sync_transactions w c (sync_process_one w c db r).1 rs).1 := by
  unfold sync_transactions
  rw [List.foldl_cons]
  have e0 : sync_fold_step w c (db, 0) r
      = ((sync_process_one w c db r).1,
         if (sync_process_one w c db r).2 then 0 + 1 else 0) := rfl
  rw [e0]
  exact sync_foldl_fst w c rs _ _

lemma sync_step_none (w c : String) (db : DB) (r : RawTx)
    (hh : (clean_transaction r c).hash = none) :
    (sync_process_one w c db r).1 = db := by
  unfold sync_process_one
  rw [add_transaction_none db _ ((syncCleaned_hash w c db r).trans hh)]

lemma sync_step_dup (w c : String) (db : DB) (r : RawTx) (h : String)
    (hh : (clean_transaction r c).hash = some h) (hdup : dbHasHash db h = true) :
    (sync_process_one w c db r).1 = db := by
  unfold sync_process_one
  rw [add_transaction_dup db _ h ((syncCleaned_hash w c db r).trans hh) hdup]

lemma sync_step_fresh (w c : String) (db : DB) (r : RawTx) (h : String)
    (hh : (clean_transaction r c).hash = some h) (hfr : dbHasHash db h = false) :
    ∃ row : TxRow, row.hash = h ∧
      (sync_process_one w c db r).1.transactions = db.transactions ++ [row] := by
  refine ⟨mkTxRow db (syncCleaned w c db r) h w c, rfl, ?_⟩
  unfold sync_process_one
  rw [add_transaction_fresh db _ h w c ((syncCleaned_hash w c db r).trans hh)
    (syncCleaned_wallet w c db r) (syncCleaned_chain w c db r) hfr]

lemma sync_nochange (w c : String) :
    ∀ (raws : List RawTx) (db : DB),
      (∀ r ∈ raws, ∀ h, (clean_transaction r c).hash = some h → dbHasHash db h = true) →
      (sync_transactions w c db raws).1 = db := by
  intro raws
  induction raws with
  | nil => intro db _; rfl
  | cons r rs ih =>
    intro db hall
    rw [sync_fst_cons]
    have hstep : (sync_process_one w c db r).1 = db := by
      cases hh : (clean_transaction r c).hash with
      | none => exact sync_step_none w c db r hh
      | some h => exact sync_step_dup w c db r h hh (hall r (List.mem_cons_self r rs) h hh)
    rw [hstep]
    exact ih db (fun r' hr' h hh => hall r' (List.mem_cons_of_mem r hr') h hh)

lemma sync_fresh_spec (w c : String) :
    ∀ (raws : List RawTx) (db : DB),
      (∀ r ∈ raws, ((clean_transaction r c).hash).isSome = true) →
      (∀ r ∈ raws, ∀ h, (clean_transaction r c).hash = some h → dbHasHash db h = false) →
      ((raws.map (fun r => (clean_transaction r c).hash)).Nodup) →
      (sync_transactions w c db raws).1.transactions.length
          = db.transactions.length + raws.length ∧
      (∀ h', dbHasHash (sync_transactions w c db raws).1 h' = true ↔
        (dbHasHash db h' = true ∨
          some h' ∈ raws.map (fun r => (clean_transaction r c).hash))) := by
  intro raws
  induction raws with
  | nil =>
    intro db _ _ _
    have e : (sync_transactions w c db []).1 = db := rfl
    exact ⟨by rw [e]; simp, fun h' => by rw [e]; simp⟩
  | cons r rs ih =>
    intro db hsome hfresh hnodup
    obtain ⟨h, hh⟩ : ∃ h, (clean_transaction r c).hash = some h :=
      Option.isSome_iff_exists.mp (hsome r (List.mem_cons_self r rs))
    have hfr : dbHasHash db h = false := hfresh r (List.mem_cons_self r rs) h hh
    obtain ⟨row, hrow, htx⟩ := sync_step_fresh w c db r h hh hfr
    have hlen1 : (sync_process_one w c db r).1.transactions.length
        = db.transactions.length + 1 := by
      rw [htx]; simp
    have hhas1 : ∀ h', dbHasHash (sync_process_one w c db r).1 h' = true ↔
        (dbHasHash db h' = true ∨ h = h') := by
      intro h'
      unfold dbHasHash
      rw [htx]
      simp [List.any_append, hrow]
    have hmapnodup : ((clean_transaction r c).hash :: rs.map
        (fun r' => (clean_transaction r' c).hash)).Nodup := by
      simpa using hnodup
    have hnotmem : some h ∉ rs.map (fun r' => (clean_transaction r' c).hash) := by
      have := (List.nodup_cons.mp hmapnodup).1
      rwa [hh] at this
    have hfresh' : ∀ r' ∈ rs, ∀ h'', (clean_transaction r' c).hash = some h'' →
        dbHasHash (sync_process_one w c db r).1 h'' = false := by
      intro r' hr' h'' hh''
      have hf := hfresh r' (List.mem_cons_of_mem r hr') h'' hh''
      have hne : ¬ (h = h'') := by
        intro he
        apply hnotmem
        rw [he, ← hh'']
        exact List.mem_map_of_mem _ hr'
      cases hbb : dbHasHash (sync_process_one w c db r).1 h'' with
      | false => rfl
      | true =>
        rcases (hhas1 h'').mp hbb with hcase | hcase
        · rw [hf] at hcase; exact absurd hcase (by simp)
        · exact absurd hcase hne
    obtain ⟨ihlen, ihhas⟩ := ih (sync_process_one w c db r).1
      (fun r' hr' => hsome r' (List.mem_cons_of_mem r hr')) hfresh'
      (List.nodup_cons.mp hmapnodup).2
    constructor
    · rw [sync_fst_cons, ihlen, hlen1]
      simp [List.length_cons]
      omega
    · intro h'
      rw [sync_fst_cons, ihhas h', hhas1 h']
      simp only [List.map_cons, List.mem_cons, hh, Option.some.injEq]
      constructor
      · rintro ((hdb | hhh) | hmem)
        · exact Or.inl hdb
        · exact Or.inr (Or.inl hhh.symm)
        · exact Or.inr (Or.inr hmem)
      · rintro (hdb | (hhh | hmem))
        · exact Or.inl (Or.inl hdb)
        · exact Or.inl (Or.inr hhh.symm)
        · exact Or.inr hmem

lemma sync_twice_spec (w c : String) (db : DB) (raws : List RawTx)
    (hsome : ∀ r ∈ raws, ((clean_transaction r c).hash).isSome = true)
    (hfresh : ∀ r ∈ raws, ∀ h, (clean_transaction r c).hash = some h → dbHasHash db h = false)
    (hnodup : (raws.map (fun r => (clean_transaction r c).hash)).Nodup) :
    (sync_transactions w c db raws).2 = raws.length ∧
    (sync_transactions w c (sync_transactions w c db raws).1 raws).2 = raws.length ∧
    (sync_transactions w c db raws).1.transactions.length
      = db.transactions.length + raws.length ∧
    (sync_transactions w c (sync_transactions w c db raws).1 raws).1
      = (sync_transactions w c db raws).1 := by
  obtain ⟨hlen, hhas⟩ := sync_fresh_spec w c raws db hsome hfresh hnodup
  refine ⟨sync_count w c db raws, sync_count w c _ raws, hlen, ?_⟩
  apply sync_nochange
  intro r hr h hh
  rw [hhas h]
  exact Or.inr (by rw [← hh]; exact List.mem_map_of_mem _ hr)

/-! ## Claim theorems: the sync loop -/

/-- A concrete batch of 5 fresh ethereum raw transactions with distinct
hashes. -/
def c1_raws : List RawTx :=
  [{ hash := some "h1", value := some 1 }, { hash := some "h2", value := some 1 },
   { hash := some "h3", value := some 1 }, { hash := some "h4", value := some 1 },
   { hash := some "h5", value := some 1 }]

/-- C1 counterexample: syncing the same batch of 5 fresh raw transactions
twice reports `synced_count = 5` on the second run as well, not 0 — the
loop counts every `add_transaction` call that returned `True`, and the
store returns `True` for duplicate hashes too.  The stored transaction
count does stay at 5. -/
theorem claim_C1_counterexample :
    (sync_transactions "w" "ethereum" { } c1_raws).2 = 5 ∧
    (sync_transactions "w" "ethereum"
        (sync_transactions "w" "ethereum" { } c1_raws).1 c1_raws).2 = 5 ∧
    (sync_transactions "w" "ethereum"
        (sync_transactions "w" "ethereum" { } c1_raws).1 c1_raws).1.transactions.length = 5 := by
  obtain ⟨h1, h2, h3, h4⟩ := sync_twice_spec "w" "ethereum" { } c1_raws
    (by decide) (fun r hr h hh => rfl) (by decide)
  refine ⟨h1, h2, ?_⟩
  rw [h4, h3]
  rfl

/-- C1 amended: for every batch of 5 raw transactions with distinct,
fresh, non-null (cleaned) hashes, both the first and the second run of the
sync loop report `synced_count = 5` (duplicates still report success);
the first run adds exactly 5 stored rows and the second run changes
nothing, so the stored transaction count stays at 5. -/
theorem claim_C1_sync_counts (w c : String) (db : DB) (raws : List RawTx)
    (hlen : raws.length = 5)
    (hsome : ∀ r ∈ raws, ((clean_transaction r c).hash).isSome = true)
    (hfresh : ∀ r ∈ raws, ∀ h, (clean_transaction r c).hash = some h → dbHasHash db h = false)
    (hnodup : (raws.map (fun r => (clean_transaction r c).hash)).Nodup) :
    (sync_transactions w c db raws).2 = 5 ∧
    (sync_transactions w c (sync_transactions w c db raws).1 raws).2 = 5 ∧
    (sync_transactions w c db raws).1.transactions.length = db.transactions.length + 5 ∧
    (sync_transactions w c (sync_transactions w c db raws).1 raws).1
      = (sync_transactions w c db raws).1 := by
  obtain ⟨h1, h2, h3, h4⟩ := sync_twice_spec w c db raws hsome hfresh hnodup
  rw [hlen] at h1 h2 h3
  exact ⟨h1, h2, h3, h4⟩

/-- C1 witness: `claim_C1_sync_counts` on the empty database and the
concrete 5-transaction batch. -/
theorem claim_C1_witness :
    (sync_transactions "w2" "ethereum" { } c1_raws).2 = 5 ∧
    (sync_transactions "w2" "ethereum"
        (sync_transactions "w2" "ethereum" { } c1_raws).1 c1_raws).2 = 5 ∧
    (sync_transactions "w2" "ethereum" { } c1_raws).1.transactions.length
      = ({ } : DB).transactions.length + 5 ∧
    (sync_transactions "w2" "ethereum"
        (sync_transactions "w2" "ethereum" { } c1_raws).1 c1_raws).1
      = (sync_transactions "w2" "ethereum" { } c1_raws).1 :=
  claim_C1_sync_counts "w2" "ethereum" { } c1_raws rfl (by decide)
    (fun r hr h hh => rfl) (by decide)

end WalletMonitor
